import Mathlib

/-!
Shallow embedding of src/driver.c (the xserve_fp USB driver): endpoint
discovery and probe, disconnect, open, bulk read/write, the ioctl command
paths, and the interrupt-completion handler, together with theorems checking
the specification's claims about them.

Kernel/bus primitives the driver calls (kmalloc, usb_register_dev,
usb_bulk_msg, usb_control_msg, usb_submit_urb, copy_to_user, copy_from_user,
mutex_lock_interruptible) are modelled as environment oracles: each probe or
I/O function takes a record of oracle outcomes and is otherwise a direct
transcription of the C control flow.  Machine integers are Nat/Int; errno
values are returned negated exactly as the C code does.
-/

namespace XFP

/-- Errno constants used by driver.c; the driver returns them negated. -/
def ENOMEM : Int := 12

/-- Errno for a faulting user-space copy (`BoundaryFault`). -/
def EFAULT : Int := 14

/-- Errno for a missing device (`EndpointMissing` / `NoSuchDevice`). -/
def ENODEV : Int := 19

/-- Errno for an unrecognized ioctl command (`UnsupportedCommand`). -/
def ENOTTY : Int := 25

/-- Errno for an interrupted lock wait (`Interrupted`). -/
def ERESTARTSYS : Int := 512

/-- Fields of a USB endpoint descriptor the driver inspects. -/
structure EndpointDesc where
  bEndpointAddress : Nat
  bmAttributes : Nat
  wMaxPacketSize : Nat
  deriving DecidableEq, Repr

/-- usb_endpoint_dir_in from linux/usb.h: direction bit 0x80 of the address. -/
def usb_endpoint_dir_in (e : EndpointDesc) : Bool :=
  e.bEndpointAddress &&& 0x80 == 0x80

/-- usb_endpoint_xfer_bulk: transfer-type bits (low two of bmAttributes) are 2. -/
def usb_endpoint_xfer_bulk (e : EndpointDesc) : Bool :=
  e.bmAttributes &&& 0x03 == 2

/-- usb_endpoint_xfer_int: transfer-type bits are 3. -/
def usb_endpoint_xfer_int (e : EndpointDesc) : Bool :=
  e.bmAttributes &&& 0x03 == 3

/-- usb_endpoint_is_bulk_in: bulk transfer type and IN direction. -/
def usb_endpoint_is_bulk_in (e : EndpointDesc) : Bool :=
  usb_endpoint_xfer_bulk e && usb_endpoint_dir_in e

/-- usb_endpoint_is_bulk_out: bulk transfer type and OUT direction. -/
def usb_endpoint_is_bulk_out (e : EndpointDesc) : Bool :=
  usb_endpoint_xfer_bulk e && !usb_endpoint_dir_in e

/-- usb_endpoint_is_int_in: interrupt transfer type and IN direction. -/
def usb_endpoint_is_int_in (e : EndpointDesc) : Bool :=
  usb_endpoint_xfer_int e && usb_endpoint_dir_in e

/-- usb_endpoint_maxp: wMaxPacketSize masked to its packet-size bits. -/
def usb_endpoint_maxp (e : EndpointDesc) : Nat :=
  e.wMaxPacketSize &&& 0x7ff

/-- struct xserve_fp (driver.c lines 42-59).  Buffers are modelled by their
allocation state (a NULL/non-NULL pointer in C); the urb by whether one is
currently held.  Note the record has no lifecycle flag of any kind: the C
struct carries none. -/
structure XserveFpDev where
  bulk_in_buffer : Bool
  bulk_in_size : Nat
  bulk_in_endpointAddr : Nat
  bulk_out_endpointAddr : Nat
  irq_buffer : Bool
  irq_buffer_size : Nat
  irq_endpointAddr : Nat
  irq_urb : Bool
  deriving DecidableEq, Repr

/-- The device record as kzalloc plus the explicit field initialisation in
xserve_fp_probe leaves it before the endpoint loop. -/
def initDev : XserveFpDev :=
  { bulk_in_buffer := false, bulk_in_size := 0, bulk_in_endpointAddr := 0,
    bulk_out_endpointAddr := 0, irq_buffer := false, irq_buffer_size := 0,
    irq_endpointAddr := 0, irq_urb := false }

/-- Outcomes of the fallible kernel services xserve_fp_probe calls: the
device-struct allocation, the k-th kmalloc inside the endpoint loop, the
usb_register_dev return value, the interrupt-urb allocation, and the
usb_submit_urb return value. -/
structure ProbeEnv where
  kzalloc_ok : Bool
  kmalloc_ok : Nat → Bool
  register_ret : Int
  urb_alloc_ok : Bool
  submit_ret : Int

/-- The endpoint loop of xserve_fp_probe (driver.c lines 139-160): classify
each descriptor, record address and max packet size, allocate a buffer for
bulk-in and interrupt-in matches.  `none` is the `goto error` on a failed
kmalloc; `k` counts kmalloc calls so the environment can fail a chosen one. -/
def scan_endpoints (env : ProbeEnv) :
    List EndpointDesc → XserveFpDev → Nat → Option XserveFpDev
  | [], dev, _ => some dev
  | ep :: rest, dev, k =>
    if usb_endpoint_is_bulk_in ep then
      if env.kmalloc_ok k then
        scan_endpoints env rest
          { dev with bulk_in_size := usb_endpoint_maxp ep,
                     bulk_in_endpointAddr := ep.bEndpointAddress,
                     bulk_in_buffer := true } (k + 1)
      else none
    else if usb_endpoint_is_bulk_out ep then
      scan_endpoints env rest
        { dev with bulk_out_endpointAddr := ep.bEndpointAddress } k
    else if usb_endpoint_is_int_in ep then
      if env.kmalloc_ok k then
        scan_endpoints env rest
          { dev with irq_buffer_size := usb_endpoint_maxp ep,
                     irq_endpointAddr := ep.bEndpointAddress,
                     irq_buffer := true } (k + 1)
      else none
    else scan_endpoints env rest dev k

/-- The endpoint loop with every kmalloc succeeding; `scan_endpoints` agrees
with it whenever the environment grants all allocations. -/
def scan_pure : List EndpointDesc → XserveFpDev → XserveFpDev
  | [], dev => dev
  | ep :: rest, dev =>
    if usb_endpoint_is_bulk_in ep then
      scan_pure rest
        { dev with bulk_in_size := usb_endpoint_maxp ep,
                   bulk_in_endpointAddr := ep.bEndpointAddress,
                   bulk_in_buffer := true }
    else if usb_endpoint_is_bulk_out ep then
      scan_pure rest { dev with bulk_out_endpointAddr := ep.bEndpointAddress }
    else if usb_endpoint_is_int_in ep then
      scan_pure rest
        { dev with irq_buffer_size := usb_endpoint_maxp ep,
                   irq_endpointAddr := ep.bEndpointAddress,
                   irq_buffer := true }
    else scan_pure rest dev

/-- What xserve_fp_probe leaves behind: its return value, whether the device
node is registered for minor lookup (usb_register_dev without a later
usb_deregister_dev), the interface's driver-data pointer, and whether the
device record has been kfree'd (so a surviving pointer to it dangles). -/
structure ProbeOutcome where
  ret : Int
  registered : Bool
  intfdata : Option XserveFpDev
  dev_freed : Bool
  deriving DecidableEq, Repr

/-- xserve_fp_probe (driver.c lines 113-219), transcribed branch for branch.
The error label frees buffers, the urb and the device record; on the path
where the interrupt-urb allocation fails after usb_register_dev succeeded,
the code reaches that label without deregistering the node or clearing the
interface data, so `registered` stays true and `intfdata` keeps pointing at
the freed record. -/
def xserve_fp_probe (env : ProbeEnv) (eps : List EndpointDesc) : ProbeOutcome :=
  if ¬ env.kzalloc_ok then
    { ret := -ENOMEM, registered := false, intfdata := none, dev_freed := false }
  else
    match scan_endpoints env eps initDev 0 with
    | none =>
      { ret := -ENOMEM, registered := false, intfdata := none, dev_freed := true }
    | some dev =>
      if dev.bulk_in_endpointAddr = 0 ∨ dev.bulk_out_endpointAddr = 0 then
        { ret := -ENODEV, registered := false, intfdata := none, dev_freed := true }
      else if env.register_ret ≠ 0 then
        { ret := env.register_ret, registered := false, intfdata := none,
          dev_freed := true }
      else if dev.irq_buffer = true ∧ dev.irq_endpointAddr ≠ 0 then
        if ¬ env.urb_alloc_ok then
          { ret := -ENOMEM, registered := true, intfdata := some dev,
            dev_freed := true }
        else if env.submit_ret ≠ 0 then
          { ret := 0, registered := true, intfdata := some dev, dev_freed := false }
        else
          { ret := 0, registered := true,
            intfdata := some { dev with irq_urb := true }, dev_freed := false }
      else
        { ret := 0, registered := true, intfdata := some dev, dev_freed := false }

/-- xserve_fp_open (driver.c lines 244-260): resolve the interface by minor,
fail -ENODEV when it is not registered or carries no driver data; otherwise
bind the handle and succeed. -/
def xserve_fp_open (st : ProbeOutcome) : Int :=
  if st.registered = false then -ENODEV
  else
    match st.intfdata with
    | none => -ENODEV
    | some _ => 0

/-- xserve_fp_disconnect (driver.c lines 222-238): clear the interface data,
deregister the node, kill and free the urb, free the buffers and the device
record.  The record any still-open file handle points at is now freed. -/
def xserve_fp_disconnect (st : ProbeOutcome) : ProbeOutcome :=
  { ret := st.ret, registered := false, intfdata := none, dev_freed := true }

/-- Observable steps of one synchronous driver call: lock operations, bus
transfers (with the wire parameters the C code passes), and user-space
copies.  `copy_bulk_buffer_to_user` is the copy_to_user in xserve_fp_read
that reads dev->bulk_in_buffer. -/
inductive IoEvent
  | lock
  | unlock
  | bulk_in_msg (addr len : Nat)
  | bulk_out_msg (addr len : Nat)
  | ctrl_msg (dir_in : Bool) (bRequest wValue wIndex wLength timeout_ms : Nat)
  | copy_bulk_buffer_to_user (n : Nat)
  | copy_status_to_user
  | copy_from_user_ev (n : Nat)
  deriving DecidableEq, Repr

/-- Events that touch the session's shared bulk-in buffer: the bulk-in bus
transfer writes it, and read's copy_to_user reads it. -/
def touches_bulk_in_buffer : IoEvent → Bool
  | .bulk_in_msg _ _ => true
  | .copy_bulk_buffer_to_user _ => true
  | _ => false

/-- Outcome of a usb_bulk_msg bulk-in round trip: the return value and the
bytes the device placed in the buffer (actual_length is their count). -/
structure BulkInResult where
  ret : Int
  data : List Nat
  deriving Repr

/-- Oracles for xserve_fp_read: whether mutex_lock_interruptible is
interrupted, the bus's response to a bulk-in request of a given length, and
whether copy_to_user succeeds. -/
structure ReadEnv where
  lock_interrupted : Bool
  bulk_msg : Nat → BulkInResult
  copy_to_user_ok : Bool

/-- xserve_fp_read (driver.c lines 272-296): take the mutex (interruptibly),
issue a bulk-in transfer of min(bulk_in_size, count) bytes with a 5000 ms
deadline, drop the mutex, then copy the received bytes to the caller;
-EFAULT if that copy faults, else the byte count.  The copy of
dev->bulk_in_buffer happens after the unlock, exactly as in the C code. -/
def xserve_fp_read (env : ReadEnv) (dev : XserveFpDev) (count : Nat) :
    Int × List IoEvent :=
  if env.lock_interrupted then (-ERESTARTSYS, [])
  else
    let req := min dev.bulk_in_size count
    let r := env.bulk_msg req
    let tr := [IoEvent.lock, IoEvent.bulk_in_msg dev.bulk_in_endpointAddr req,
               IoEvent.unlock]
    if r.ret ≠ 0 then (r.ret, tr)
    else
      let tr2 := tr ++ [IoEvent.copy_bulk_buffer_to_user r.data.length]
      if ¬ env.copy_to_user_ok then (-EFAULT, tr2)
      else ((r.data.length : Int), tr2)

/-- Oracles for xserve_fp_write: the transient-buffer kmalloc, copy_from_user,
the lock wait, and the bulk-out transfer's (return value, bytes_written). -/
structure WriteEnv where
  kmalloc_ok : Bool
  copy_from_user_ok : Bool
  lock_interrupted : Bool
  bulk_out_result : Int × Nat

/-- xserve_fp_write (driver.c lines 302-334): allocate a transient buffer of
the caller's length, copy the payload in, take the mutex, issue the bulk-out
transfer with a 5000 ms deadline, drop the mutex, free the buffer, and
return the transfer error or the bytes written. -/
def xserve_fp_write (env : WriteEnv) (dev : XserveFpDev) (count : Nat) :
    Int × List IoEvent :=
  if ¬ env.kmalloc_ok then (-ENOMEM, [])
  else if ¬ env.copy_from_user_ok then (-EFAULT, [IoEvent.copy_from_user_ev count])
  else if env.lock_interrupted then (-ERESTARTSYS, [IoEvent.copy_from_user_ev count])
  else
    let tr := [IoEvent.copy_from_user_ev count, IoEvent.lock,
               IoEvent.bulk_out_msg dev.bulk_out_endpointAddr count, IoEvent.unlock]
    if env.bulk_out_result.1 ≠ 0 then (env.bulk_out_result.1, tr)
    else ((env.bulk_out_result.2 : Int), tr)

/-- The Linux _IOC command encoding: dir in bits 30-31, size in bits 16-29,
type in bits 8-15, number in bits 0-7. -/
def IOC (dir ty nr size : Nat) : Nat :=
  dir * 2 ^ 30 + size * 2 ^ 16 + ty * 2 ^ 8 + nr

/-- XSERVE_FP_IOCTL_GET_STATUS = _IOR of type x (120), nr 1, sizeof int. -/
def XSERVE_FP_IOCTL_GET_STATUS : Nat := IOC 2 120 1 4

/-- XSERVE_FP_IOCTL_SET_LED = _IOW of type x (120), nr 2, sizeof int. -/
def XSERVE_FP_IOCTL_SET_LED : Nat := IOC 1 120 2 4

/-- Oracles for xserve_fp_ioctl: the lock wait, the usb_control_msg return
value, and the two user-space copies. -/
structure IoctlEnv where
  lock_interrupted : Bool
  ctrl_ret : Int
  copy_to_user_ok : Bool
  copy_from_user_ok : Bool

/-- xserve_fp_ioctl (driver.c lines 340-396).  GET_STATUS: inbound vendor
control request (bRequest 1, value 0, index 0, 4-byte payload, 1000 ms), then
copy the status to the caller (-EFAULT if that faults, else 0).  SET_LED:
copy the 4-byte value from the caller, then an outbound vendor control
request (bRequest 2, no payload, 1000 ms) whose 16-bit wValue is the C
int-to-u16 conversion of led_val, i.e. its value modulo 2^16.  Unknown
commands fail -ENOTTY. -/
def xserve_fp_ioctl (env : IoctlEnv) (cmd : Nat) (led_val : Int) :
    Int × List IoEvent :=
  if env.lock_interrupted then (-ERESTARTSYS, [])
  else if cmd = XSERVE_FP_IOCTL_GET_STATUS then
    let tr := [IoEvent.lock, IoEvent.ctrl_msg true 1 0 0 4 1000]
    if env.ctrl_ret < 0 then (env.ctrl_ret, tr ++ [IoEvent.unlock])
    else if ¬ env.copy_to_user_ok then
      (-EFAULT, tr ++ [IoEvent.copy_status_to_user, IoEvent.unlock])
    else (0, tr ++ [IoEvent.copy_status_to_user, IoEvent.unlock])
  else if cmd = XSERVE_FP_IOCTL_SET_LED then
    if ¬ env.copy_from_user_ok then (-EFAULT, [IoEvent.lock, IoEvent.unlock])
    else
      (env.ctrl_ret,
       [IoEvent.lock, IoEvent.copy_from_user_ev 4,
        IoEvent.ctrl_msg false 2 (led_val % 65536).toNat 0 0 1000, IoEvent.unlock])
  else (-ENOTTY, [IoEvent.lock, IoEvent.unlock])

/-- Value of `f` at the last element of `l`, or `d` when `l` is empty: the
net effect on one device field of a loop that overwrites it at each match. -/
def lastD {α : Type} (l : List EndpointDesc) (f : EndpointDesc → α) (d : α) : α :=
  match l.getLast? with
  | some e => f e
  | none => d

lemma lastD_cons {α : Type} (e : EndpointDesc) (l : List EndpointDesc)
    (f : EndpointDesc → α) (d : α) : lastD (e :: l) f d = lastD l f (f e) := by
  cases l with
  | nil => rfl
  | cons x xs =>
    cases hx : (x :: xs).getLast? with
    | none => simp at hx
    | some y => simp [lastD, List.getLast?_cons_cons, hx]

lemma lastD_of_getLast {α : Type} {l : List EndpointDesc} {e : EndpointDesc}
    (f : EndpointDesc → α) (d : α) (h : l.getLast? = some e) :
    lastD l f d = f e := by
  simp [lastD, h]

lemma lastD_of_nil {α : Type} {l : List EndpointDesc}
    (f : EndpointDesc → α) (d : α) (h : l = []) : lastD l f d = d := by
  simp [lastD, h]

lemma bulk_in_not_bulk_out {e : EndpointDesc}
    (h : usb_endpoint_is_bulk_in e = true) : usb_endpoint_is_bulk_out e = false := by
  unfold usb_endpoint_is_bulk_in at h
  unfold usb_endpoint_is_bulk_out
  simp only [Bool.and_eq_true] at h
  obtain ⟨h1, h2⟩ := h
  simp [h1, h2]

lemma bulk_in_not_int_in {e : EndpointDesc}
    (h : usb_endpoint_is_bulk_in e = true) : usb_endpoint_is_int_in e = false := by
  unfold usb_endpoint_is_bulk_in usb_endpoint_xfer_bulk at h
  unfold usb_endpoint_is_int_in usb_endpoint_xfer_int
  simp only [Bool.and_eq_true] at h
  have h2 : e.bmAttributes &&& 3 = 2 := by simpa using h.1
  simp [h2]

lemma bulk_out_not_int_in {e : EndpointDesc}
    (h : usb_endpoint_is_bulk_out e = true) : usb_endpoint_is_int_in e = false := by
  unfold usb_endpoint_is_bulk_out usb_endpoint_xfer_bulk at h
  unfold usb_endpoint_is_int_in usb_endpoint_xfer_int
  simp only [Bool.and_eq_true] at h
  have h2 : e.bmAttributes &&& 3 = 2 := by simpa using h.1
  simp [h2]

lemma bulk_in_addr_ne_zero {e : EndpointDesc}
    (h : usb_endpoint_is_bulk_in e = true) : e.bEndpointAddress ≠ 0 := by
  unfold usb_endpoint_is_bulk_in usb_endpoint_dir_in at h
  simp only [Bool.and_eq_true] at h
  intro h0
  have h2 := h.2
  rw [h0] at h2
  simp at h2

/-- With every kmalloc granted, the probe's endpoint loop never takes its
error exit and computes `scan_pure`. -/
lemma scan_endpoints_eq_pure (env : ProbeEnv) (h : ∀ k, env.kmalloc_ok k = true) :
    ∀ (eps : List EndpointDesc) (dev : XserveFpDev) (k : Nat),
      scan_endpoints env eps dev k = some (scan_pure eps dev) := by
  intro eps
  induction eps with
  | nil => intro dev k; rfl
  | cons ep rest ih =>
    intro dev k
    by_cases h1 : usb_endpoint_is_bulk_in ep = true
    · simp [scan_endpoints, scan_pure, h1, h k, ih]
    · by_cases h2 : usb_endpoint_is_bulk_out ep = true
      · simp [scan_endpoints, scan_pure, h1, h2, ih]
      · by_cases h3 : usb_endpoint_is_int_in ep = true
        · simp [scan_endpoints, scan_pure, h1, h2, h3, h k, ih]
        · simp [scan_endpoints, scan_pure, h1, h2, h3, ih]

/-- Per-field effect of the endpoint loop: each category's fields end at the
values taken from the last matching descriptor (the loop overwrites them at
every match), and the urb field is untouched. -/
lemma scan_pure_char : ∀ (eps : List EndpointDesc) (dev : XserveFpDev),
    scan_pure eps dev =
      { bulk_in_buffer :=
          lastD (eps.filter usb_endpoint_is_bulk_in) (fun _ => true) dev.bulk_in_buffer,
        bulk_in_size :=
          lastD (eps.filter usb_endpoint_is_bulk_in) usb_endpoint_maxp dev.bulk_in_size,
        bulk_in_endpointAddr :=
          lastD (eps.filter usb_endpoint_is_bulk_in) (fun e => e.bEndpointAddress)
            dev.bulk_in_endpointAddr,
        bulk_out_endpointAddr :=
          lastD (eps.filter usb_endpoint_is_bulk_out) (fun e => e.bEndpointAddress)
            dev.bulk_out_endpointAddr,
        irq_buffer :=
          lastD (eps.filter usb_endpoint_is_int_in) (fun _ => true) dev.irq_buffer,
        irq_buffer_size :=
          lastD (eps.filter usb_endpoint_is_int_in) usb_endpoint_maxp dev.irq_buffer_size,
        irq_endpointAddr :=
          lastD (eps.filter usb_endpoint_is_int_in) (fun e => e.bEndpointAddress)
            dev.irq_endpointAddr,
        irq_urb := dev.irq_urb } := by
  intro eps
  induction eps with
  | nil => intro dev; simp [scan_pure, lastD]
  | cons ep rest ih =>
    intro dev
    by_cases h1 : usb_endpoint_is_bulk_in ep = true
    · simp [scan_pure, h1, ih, List.filter_cons, bulk_in_not_bulk_out h1,
        bulk_in_not_int_in h1, lastD_cons]
    · by_cases h2 : usb_endpoint_is_bulk_out ep = true
      · simp [scan_pure, h1, h2, ih, List.filter_cons, bulk_out_not_int_in h2,
          lastD_cons]
      · by_cases h3 : usb_endpoint_is_int_in ep = true
        · simp [scan_pure, h1, h2, h3, ih, List.filter_cons, lastD_cons]
        · simp [scan_pure, h1, h2, h3, ih, List.filter_cons]

/-- The resubmission decision of xserve_fp_irq (driver.c lines 88-110): on an
error completion status it logs and returns without resubmitting; on status
zero it processes the payload and calls usb_submit_urb on itself. -/
def xserve_fp_irq_resubmits (status : Int) : Bool := status == 0

/-- The listener loop the bus drives: while the urb is outstanding the next
completion in the stream is delivered to xserve_fp_irq; the pair records the
status delivered and whether the handler resubmitted.  Once the handler
declines to resubmit, no further completion can be delivered. -/
def run_event_monitor : List Int → List (Int × Bool)
  | [] => []
  | s :: rest =>
    if xserve_fp_irq_resubmits s then (s, true) :: run_event_monitor rest
    else [(s, false)]

/-- A demo session record: bulk endpoints at addresses 129 (0x81, in) and 2
(out) with 64-byte packets, no interrupt endpoint. -/
def demoDev : XserveFpDev :=
  { bulk_in_buffer := true, bulk_in_size := 64, bulk_in_endpointAddr := 129,
    bulk_out_endpointAddr := 2, irq_buffer := false, irq_buffer_size := 0,
    irq_endpointAddr := 0, irq_urb := false }

/-- A read environment: lock granted, device answers 4 bytes, user copy ok. -/
def demoReadEnv : ReadEnv :=
  { lock_interrupted := false,
    bulk_msg := fun _ => { ret := 0, data := [1, 2, 3, 4] },
    copy_to_user_ok := true }

/-- Registry state after a successful attach of demoDev followed by a
disconnect: node deregistered, interface data cleared, record freed.  A file
handle opened before the disconnect still holds a pointer to demoDev. -/
def demoDetached : ProbeOutcome :=
  xserve_fp_disconnect
    { ret := 0, registered := true, intfdata := some demoDev, dev_freed := false }

/-- C1: the code contradicts the claim.  struct xserve_fp has no lifecycle
flag and xserve_fp_read observes nothing after taking the mutex, so a Read
through a handle bound before Detach still issues the bulk-in bus transfer
(against the freed session record) and returns its byte count — it does not
fail with SessionDetached and does not return without a bus transfer. -/
theorem c1_read_after_detach_still_transfers :
    demoDetached.intfdata = none ∧ demoDetached.dev_freed = true ∧
    xserve_fp_read demoReadEnv demoDev 8 =
      (4, [IoEvent.lock, IoEvent.bulk_in_msg 129 8, IoEvent.unlock,
           IoEvent.copy_bulk_buffer_to_user 4]) := by
  refine ⟨rfl, rfl, ?_⟩
  decide

/-- A bulk-in endpoint descriptor (address 0x81, bulk, 64-byte packets). -/
def epBulkIn : EndpointDesc :=
  { bEndpointAddress := 129, bmAttributes := 2, wMaxPacketSize := 64 }

/-- A bulk-out endpoint descriptor (address 0x02, bulk, 64-byte packets). -/
def epBulkOut : EndpointDesc :=
  { bEndpointAddress := 2, bmAttributes := 2, wMaxPacketSize := 64 }

/-- An interrupt-in endpoint descriptor (address 0x83, interrupt, 8 bytes). -/
def epIntIn : EndpointDesc :=
  { bEndpointAddress := 131, bmAttributes := 3, wMaxPacketSize := 8 }

/-- Probe environment in which every buffer allocation succeeds, registration
succeeds, and the interrupt-urb allocation fails. -/
def envUrbAllocFail : ProbeEnv :=
  { kzalloc_ok := true, kmalloc_ok := fun _ => true, register_ret := 0,
    urb_alloc_ok := false, submit_ret := 0 }

/-- C2: the code contradicts the claim.  When the listener-urb allocation
fails after usb_register_dev has succeeded, probe returns -ENOMEM but takes
the error exit without deregistering the device node or clearing the
interface data: the device stays registered, a subsequent Open of its minor
succeeds, and the interface data points at the kfree'd record. -/
theorem c2_urb_alloc_failure_leaves_device_registered :
    (xserve_fp_probe envUrbAllocFail [epBulkIn, epBulkOut, epIntIn]).ret = -ENOMEM ∧
    (xserve_fp_probe envUrbAllocFail [epBulkIn, epBulkOut, epIntIn]).registered
      = true ∧
    (xserve_fp_probe envUrbAllocFail [epBulkIn, epBulkOut, epIntIn]).dev_freed
      = true ∧
    xserve_fp_open (xserve_fp_probe envUrbAllocFail [epBulkIn, epBulkOut, epIntIn])
      = 0 := by
  refine ⟨?_, ?_, ?_, ?_⟩ <;> decide

/-- Closed form of the listener loop: the leading status-zero completions are
each processed and resubmitted, then the first error status (if the stream
reaches one) is processed without resubmission, and nothing follows it. -/
lemma run_event_monitor_closed_form (l : List Int) :
    run_event_monitor l =
      ((l.takeWhile fun s => s == 0).map fun s => (s, true)) ++
      (((l.dropWhile fun s => s == 0).take 1).map fun s => (s, false)) := by
  induction l with
  | nil => rfl
  | cons s rest ih =>
    by_cases h : (s == 0) = true
    · simp [run_event_monitor, xserve_fp_irq_resubmits, h, List.takeWhile_cons,
        List.dropWhile_cons, ih]
    · simp [run_event_monitor, xserve_fp_irq_resubmits, h, List.takeWhile_cons,
        List.dropWhile_cons]

/-- Once the handler declines to resubmit, the processed stream ends: nothing
is delivered — and so nothing is resubmitted — after an error completion. -/
lemma run_event_monitor_stops_after_error :
    ∀ (l : List Int) (p : List (Int × Bool)) (s : Int) (r : List (Int × Bool)),
      run_event_monitor l = p ++ (s, false) :: r → r = [] := by
  intro l
  induction l with
  | nil =>
    intro p s r h
    rw [run_event_monitor] at h
    exact absurd h.symm (by simp)
  | cons a rest ih =>
    intro p s r h
    by_cases ha : (a == 0) = true
    · rw [run_event_monitor] at h
      simp only [xserve_fp_irq_resubmits, ha, if_true] at h
      cases p with
      | nil => simp at h
      | cons q p2 =>
        rw [List.cons_append] at h
        exact ih p2 s r (List.cons.inj h).2
    · rw [run_event_monitor] at h
      simp only [xserve_fp_irq_resubmits, ha, if_false] at h
      cases p with
      | nil =>
        simp only [List.nil_append] at h
        exact (List.cons.inj h).2.symm
      | cons q p2 =>
        rw [List.cons_append] at h
        have h2 := (List.cons.inj h).2
        exact absurd h2.symm (by simp)

/-- C5 (confirmed): along every completion-status stream, the handler
resubmits after exactly the successful (status-zero) completions; the first
error completion is processed without resubmission, and no completion —
hence no further resubmission — occurs after it. -/
theorem c5_event_monitor_resubmission (l : List Int) :
    (run_event_monitor l =
      ((l.takeWhile fun s => s == 0).map fun s => (s, true)) ++
      (((l.dropWhile fun s => s == 0).take 1).map fun s => (s, false))) ∧
    (∀ (p : List (Int × Bool)) (s : Int) (r : List (Int × Bool)),
      run_event_monitor l = p ++ (s, false) :: r → r = []) :=
  ⟨run_event_monitor_closed_form l,
   fun p s r h => run_event_monitor_stops_after_error l p s r h⟩

lemma mem_of_getLast?_eq {α : Type} {l : List α} {a : α}
    (h : l.getLast? = some a) : a ∈ l := by
  have hne : l ≠ [] := by rintro rfl; simp at h
  have h2 := List.getLast?_eq_getLast l hne ▸ h
  simp only [Option.some.injEq] at h2
  exact h2 ▸ List.getLast_mem hne

lemma filter_getLast_of_present {p : EndpointDesc → Bool} {eps : List EndpointDesc}
    (h : ∃ e ∈ eps, p e = true) :
    ∃ elast, (eps.filter p).getLast? = some elast ∧ elast ∈ eps ∧ p elast = true := by
  obtain ⟨e, he, hp⟩ := h
  have hne : eps.filter p ≠ [] := by
    intro h0
    exact absurd hp (List.filter_eq_nil_iff.mp h0 e he)
  cases hg : (eps.filter p).getLast? with
  | none => exact absurd (List.getLast?_eq_none_iff.mp hg) hne
  | some elast =>
    have hmem := List.mem_filter.mp (mem_of_getLast?_eq hg)
    exact ⟨elast, rfl, hmem.1, hmem.2⟩

lemma int_in_addr_ne_zero {e : EndpointDesc}
    (h : usb_endpoint_is_int_in e = true) : e.bEndpointAddress ≠ 0 := by
  unfold usb_endpoint_is_int_in usb_endpoint_dir_in at h
  simp only [Bool.and_eq_true] at h
  intro h0
  have h2 := h.2
  rw [h0] at h2
  simp at h2

lemma addr_ne_zero_of_low_nibble {e : EndpointDesc}
    (h : e.bEndpointAddress &&& 15 ≠ 0) : e.bEndpointAddress ≠ 0 := by
  intro h0
  rw [h0] at h
  simp at h

/-- A probe environment in which every kernel service succeeds. -/
def envAllOk : ProbeEnv :=
  { kzalloc_ok := true, kmalloc_ok := fun _ => true, register_ret := 0,
    urb_alloc_ok := true, submit_ret := 0 }

/-- C3 (confirmed): with the attach-time allocations granted, an endpoint
list without a bulk-in descriptor or without a bulk-out descriptor makes
probe fail -ENODEV (EndpointMissing), registering nothing and keeping no
session record, so a subsequent Open fails -ENODEV (NoSuchDevice); a list
carrying both bulk endpoints but no interrupt-in descriptor still attaches
with return 0, only without an interrupt buffer or armed listener — the
Event Monitor alone is disabled.  hvalid says every descriptor carries a
nonzero endpoint number, as the USB spec requires (number 0 is the control
endpoint). -/
theorem c3_endpoint_missing_fails_attach (env : ProbeEnv) (eps : List EndpointDesc)
    (hz : env.kzalloc_ok = true) (hm : ∀ k, env.kmalloc_ok k = true)
    (hreg : env.register_ret = 0)
    (hvalid : ∀ e ∈ eps, e.bEndpointAddress &&& 15 ≠ 0) :
    (((∀ e ∈ eps, ¬ usb_endpoint_is_bulk_in e = true) ∨
      (∀ e ∈ eps, ¬ usb_endpoint_is_bulk_out e = true)) →
      (xserve_fp_probe env eps).ret = -ENODEV ∧
      (xserve_fp_probe env eps).registered = false ∧
      (xserve_fp_probe env eps).intfdata = none ∧
      xserve_fp_open (xserve_fp_probe env eps) = -ENODEV) ∧
    ((∃ e ∈ eps, usb_endpoint_is_bulk_in e = true) →
     (∃ e ∈ eps, usb_endpoint_is_bulk_out e = true) →
     (∀ e ∈ eps, ¬ usb_endpoint_is_int_in e = true) →
      (xserve_fp_probe env eps).ret = 0 ∧
      ∃ d, (xserve_fp_probe env eps).intfdata = some d ∧
        d.irq_buffer = false ∧ d.irq_urb = false) := by
  have hscan := scan_endpoints_eq_pure env hm eps initDev 0
  have hchar := scan_pure_char eps initDev
  constructor
  · intro hmiss
    have h0 : (scan_pure eps initDev).bulk_in_endpointAddr = 0 ∨
        (scan_pure eps initDev).bulk_out_endpointAddr = 0 := by
      rcases hmiss with hbi | hbo
      · left
        have hf : eps.filter usb_endpoint_is_bulk_in = [] :=
          List.filter_eq_nil_iff.mpr hbi
        rw [hchar]
        simp [lastD_of_nil _ _ hf, initDev]
      · right
        have hf : eps.filter usb_endpoint_is_bulk_out = [] :=
          List.filter_eq_nil_iff.mpr hbo
        rw [hchar]
        simp [lastD_of_nil _ _ hf, initDev]
    unfold xserve_fp_probe
    rw [hscan]
    simp [hz, h0, xserve_fp_open]
  · intro hbi hbo hni
    obtain ⟨ebi, hgi, _, hpi⟩ := filter_getLast_of_present hbi
    obtain ⟨ebo, hgo, hmo, hpo⟩ := filter_getLast_of_present hbo
    have hin : (scan_pure eps initDev).bulk_in_endpointAddr ≠ 0 := by
      rw [hchar]
      simpa [lastD_of_getLast _ _ hgi] using bulk_in_addr_ne_zero hpi
    have hout : (scan_pure eps initDev).bulk_out_endpointAddr ≠ 0 := by
      rw [hchar]
      simpa [lastD_of_getLast _ _ hgo] using
        addr_ne_zero_of_low_nibble (hvalid ebo hmo)
    have hirq : (scan_pure eps initDev).irq_buffer = false := by
      have hf : eps.filter usb_endpoint_is_int_in = [] :=
        List.filter_eq_nil_iff.mpr hni
      rw [hchar]
      simp [lastD_of_nil _ _ hf, initDev]
    have hurb : (scan_pure eps initDev).irq_urb = false := by
      rw [hchar]
      simp [initDev]
    unfold xserve_fp_probe
    rw [hscan]
    simp [hz, hin, hout, hreg, hirq, hurb]

/-- C3 witness: the theorem applied to a descriptor list with only a
bulk-out endpoint — attach fails -ENODEV with nothing registered and Open
fails — and to a list with both bulk endpoints and no interrupt-in — attach
succeeds with the Event Monitor disabled. -/
theorem c3_endpoint_missing_fails_attach_witness :
    ((xserve_fp_probe envAllOk [epBulkOut]).ret = -ENODEV ∧
     (xserve_fp_probe envAllOk [epBulkOut]).registered = false ∧
     (xserve_fp_probe envAllOk [epBulkOut]).intfdata = none ∧
     xserve_fp_open (xserve_fp_probe envAllOk [epBulkOut]) = -ENODEV) ∧
    ((xserve_fp_probe envAllOk [epBulkIn, epBulkOut]).ret = 0 ∧
     ∃ d, (xserve_fp_probe envAllOk [epBulkIn, epBulkOut]).intfdata = some d ∧
       d.irq_buffer = false ∧ d.irq_urb = false) :=
  ⟨(c3_endpoint_missing_fails_attach envAllOk [epBulkOut] rfl (fun _ => rfl) rfl
      (by decide)).1 (Or.inl (by decide)),
   (c3_endpoint_missing_fails_attach envAllOk [epBulkIn, epBulkOut] rfl
      (fun _ => rfl) rfl (by decide)).2
     ⟨epBulkIn, by decide, by decide⟩ ⟨epBulkOut, by decide, by decide⟩
     (by decide)⟩

/-- C7 (confirmed): with allocations granted, Endpoint Discovery completes
and records, independently for the bulk-in category and for the
interrupt-in category, the address and maximum packet size of the last
matching descriptor in list order — whenever a category has a match (in
particular when it has several), the last discovered wins, regardless of
whether the other category matches at all. -/
theorem c7_last_discovered_endpoint_wins (env : ProbeEnv)
    (eps : List EndpointDesc) (dev0 : XserveFpDev)
    (hm : ∀ k, env.kmalloc_ok k = true) :
    (∀ ebi, (eps.filter usb_endpoint_is_bulk_in).getLast? = some ebi →
      ∃ d, scan_endpoints env eps dev0 0 = some d ∧
        d.bulk_in_endpointAddr = ebi.bEndpointAddress ∧
        d.bulk_in_size = usb_endpoint_maxp ebi) ∧
    (∀ eii, (eps.filter usb_endpoint_is_int_in).getLast? = some eii →
      ∃ d, scan_endpoints env eps dev0 0 = some d ∧
        d.irq_endpointAddr = eii.bEndpointAddress ∧
        d.irq_buffer_size = usb_endpoint_maxp eii) := by
  constructor
  · intro ebi hbi
    refine ⟨scan_pure eps dev0, scan_endpoints_eq_pure env hm eps dev0 0, ?_, ?_⟩ <;>
      rw [scan_pure_char] <;>
      simp [lastD_of_getLast _ _ hbi]
  · intro eii hii
    refine ⟨scan_pure eps dev0, scan_endpoints_eq_pure env hm eps dev0 0, ?_, ?_⟩ <;>
      rw [scan_pure_char] <;>
      simp [lastD_of_getLast _ _ hii]

/-- A second bulk-in descriptor (address 0x82, 32-byte packets). -/
def epBulkIn2 : EndpointDesc :=
  { bEndpointAddress := 130, bmAttributes := 2, wMaxPacketSize := 32 }

/-- A second interrupt-in descriptor (address 0x84, 16-byte packets). -/
def epIntIn2 : EndpointDesc :=
  { bEndpointAddress := 132, bmAttributes := 3, wMaxPacketSize := 16 }

/-- C7 witness: on a list with two bulk-in descriptors and no interrupt-in
at all, discovery keeps the second bulk-in; on a list with two interrupt-in
descriptors and no bulk endpoint, discovery keeps the second interrupt-in. -/
theorem c7_last_discovered_endpoint_wins_witness :
    (∃ d, scan_endpoints envAllOk [epBulkIn, epBulkIn2] initDev 0 = some d ∧
      d.bulk_in_endpointAddr = epBulkIn2.bEndpointAddress ∧
      d.bulk_in_size = usb_endpoint_maxp epBulkIn2) ∧
    (∃ d, scan_endpoints envAllOk [epIntIn, epIntIn2] initDev 0 = some d ∧
      d.irq_endpointAddr = epIntIn2.bEndpointAddress ∧
      d.irq_buffer_size = usb_endpoint_maxp epIntIn2) :=
  ⟨(c7_last_discovered_endpoint_wins envAllOk [epBulkIn, epBulkIn2] initDev
      (fun _ => rfl)).1 epBulkIn2 (by decide),
   (c7_last_discovered_endpoint_wins envAllOk [epIntIn, epIntIn2] initDev
      (fun _ => rfl)).2 epIntIn2 (by decide)⟩

/-- C10 (confirmed): with both bulk endpoints and an interrupt-in endpoint
discovered, when the listener urb is allocated but its initial submission
fails, probe frees the urb and still returns 0 with the device registered —
Open succeeds and the session record holds no armed listener; by contrast
the same attach with the urb allocation itself failing returns -ENOMEM. -/
theorem c10_submit_failure_not_fatal (env : ProbeEnv) (eps : List EndpointDesc)
    (hz : env.kzalloc_ok = true) (hm : ∀ k, env.kmalloc_ok k = true)
    (hreg : env.register_ret = 0) (hurb : env.urb_alloc_ok = true)
    (hsub : env.submit_ret ≠ 0)
    (hbi : ∃ e ∈ eps, usb_endpoint_is_bulk_in e = true)
    (hbo : ∃ e ∈ eps, usb_endpoint_is_bulk_out e = true)
    (hii : ∃ e ∈ eps, usb_endpoint_is_int_in e = true)
    (hvalid : ∀ e ∈ eps, e.bEndpointAddress &&& 15 ≠ 0) :
    (xserve_fp_probe env eps).ret = 0 ∧
    (xserve_fp_probe env eps).registered = true ∧
    (xserve_fp_probe env eps).intfdata = some (scan_pure eps initDev) ∧
    (scan_pure eps initDev).irq_urb = false ∧
    xserve_fp_open (xserve_fp_probe env eps) = 0 ∧
    (xserve_fp_probe { env with urb_alloc_ok := false } eps).ret = -ENOMEM := by
  have hchar := scan_pure_char eps initDev
  obtain ⟨ebi, hgi, _, hpi⟩ := filter_getLast_of_present hbi
  obtain ⟨ebo, hgo, hmo, _⟩ := filter_getLast_of_present hbo
  obtain ⟨eii, hgii, _, hpii⟩ := filter_getLast_of_present hii
  have hin : (scan_pure eps initDev).bulk_in_endpointAddr ≠ 0 := by
    rw [hchar]
    simpa [lastD_of_getLast _ _ hgi] using bulk_in_addr_ne_zero hpi
  have hout : (scan_pure eps initDev).bulk_out_endpointAddr ≠ 0 := by
    rw [hchar]
    simpa [lastD_of_getLast _ _ hgo] using
      addr_ne_zero_of_low_nibble (hvalid ebo hmo)
  have hib : (scan_pure eps initDev).irq_buffer = true := by
    rw [hchar]
    simp [lastD_of_getLast _ _ hgii]
  have hia : (scan_pure eps initDev).irq_endpointAddr ≠ 0 := by
    rw [hchar]
    simpa [lastD_of_getLast _ _ hgii] using int_in_addr_ne_zero hpii
  have hurb2 : (scan_pure eps initDev).irq_urb = false := by
    rw [hchar]
    simp [initDev]
  have hscan := scan_endpoints_eq_pure env hm eps initDev 0
  have hscan2 := scan_endpoints_eq_pure { env with urb_alloc_ok := false }
    (by simpa using hm) eps initDev 0
  refine ⟨?_, ?_, ?_, hurb2, ?_, ?_⟩ <;>
    unfold xserve_fp_probe <;>
    first
    | (rw [hscan]; simp [hz, hin, hout, hreg, hib, hia, hurb, hsub, xserve_fp_open])
    | (rw [hscan2]; simp [hz, hin, hout, hreg, hib, hia, xserve_fp_open])

/-- A probe environment in which the initial interrupt-urb submission
fails. -/
def envSubmitFail : ProbeEnv :=
  { kzalloc_ok := true, kmalloc_ok := fun _ => true, register_ret := 0,
    urb_alloc_ok := true, submit_ret := -5 }

/-- C10 witness: the theorem applied to a list with bulk-in, bulk-out and
interrupt-in endpoints under a failing initial submission. -/
theorem c10_submit_failure_not_fatal_witness :
    (xserve_fp_probe envSubmitFail [epBulkIn, epBulkOut, epIntIn]).ret = 0 ∧
    (xserve_fp_probe envSubmitFail [epBulkIn, epBulkOut, epIntIn]).registered
      = true ∧
    (xserve_fp_probe envSubmitFail [epBulkIn, epBulkOut, epIntIn]).intfdata
      = some (scan_pure [epBulkIn, epBulkOut, epIntIn] initDev) ∧
    (scan_pure [epBulkIn, epBulkOut, epIntIn] initDev).irq_urb = false ∧
    xserve_fp_open (xserve_fp_probe envSubmitFail [epBulkIn, epBulkOut, epIntIn])
      = 0 ∧
    (xserve_fp_probe { envSubmitFail with urb_alloc_ok := false }
      [epBulkIn, epBulkOut, epIntIn]).ret = -ENOMEM :=
  c10_submit_failure_not_fatal envSubmitFail [epBulkIn, epBulkOut, epIntIn]
    rfl (fun _ => rfl) rfl rfl (by decide)
    ⟨epBulkIn, by decide, by decide⟩ ⟨epBulkOut, by decide, by decide⟩
    ⟨epIntIn, by decide, by decide⟩ (by decide)

/-- An ioctl environment: lock granted, control transfer succeeds, both
user-space copies succeed. -/
def demoIoctlEnv : IoctlEnv :=
  { lock_interrupted := false, ctrl_ret := 0, copy_to_user_ok := true,
    copy_from_user_ok := true }

/-- C8 counterexample: SetActuator(65536) — a representable 4-byte signed
input — puts wValue 0 on the wire, because the C int is converted to the
16-bit wValue argument of usb_control_msg; the carried value is not the
input. -/
theorem c8_counterexample_wire_value_truncated :
    (xserve_fp_ioctl demoIoctlEnv XSERVE_FP_IOCTL_SET_LED 65536).2 =
      [IoEvent.lock, IoEvent.copy_from_user_ev 4,
       IoEvent.ctrl_msg false 2 0 0 0 1000, IoEvent.unlock] ∧
    (65536 : Int) ≠ (0 : Int) := by
  refine ⟨?_, by decide⟩
  decide

/-- C8 amended (corrected): for every 4-byte signed input, SetActuator issues
exactly one outbound vendor control request — bRequest 2, no payload
(wLength 0), 1000 ms deadline — whose 16-bit wValue is the input reduced
modulo 2^16 (the C int-to-u16 conversion); the wire value equals the input
exactly when the input lies in [0, 65536). -/
theorem c8_set_actuator_wire_value (env : IoctlEnv) (v : Int)
    (hl : env.lock_interrupted = false) (hcf : env.copy_from_user_ok = true)
    (hlo : -(2 ^ 31) ≤ v) (hhi : v < 2 ^ 31) :
    (xserve_fp_ioctl env XSERVE_FP_IOCTL_SET_LED v).2 =
      [IoEvent.lock, IoEvent.copy_from_user_ev 4,
       IoEvent.ctrl_msg false 2 (v % 65536).toNat 0 0 1000, IoEvent.unlock] ∧
    ((v % 65536).toNat : Int) = v % 65536 ∧
    (v % 65536).toNat < 65536 ∧
    (0 ≤ v → v < 65536 → ((v % 65536).toNat : Int) = v) := by
  have hne : XSERVE_FP_IOCTL_SET_LED ≠ XSERVE_FP_IOCTL_GET_STATUS := by decide
  refine ⟨?_, by omega, by omega, fun h1 h2 => by omega⟩
  simp [xserve_fp_ioctl, hl, hcf, hne]

/-- C8 witness: the amended theorem applied at input 70000; the wire value is
70000 mod 65536. -/
theorem c8_set_actuator_wire_value_witness :
    (xserve_fp_ioctl demoIoctlEnv XSERVE_FP_IOCTL_SET_LED 70000).2 =
      [IoEvent.lock, IoEvent.copy_from_user_ev 4,
       IoEvent.ctrl_msg false 2 ((70000 : Int) % 65536).toNat 0 0 1000,
       IoEvent.unlock] ∧
    (((70000 : Int) % 65536).toNat : Int) = (70000 : Int) % 65536 ∧
    ((70000 : Int) % 65536).toNat < 65536 ∧
    ((0 : Int) ≤ 70000 → (70000 : Int) < 65536 →
      (((70000 : Int) % 65536).toNat : Int) = 70000) :=
  c8_set_actuator_wire_value demoIoctlEnv 70000 rfl rfl (by decide) (by decide)

/-- C4 (confirmed): for a session whose endpoint map Endpoint Discovery
produced — so bulk_in_size is the recorded (last) bulk-in endpoint's maximum
packet size and the bulk-in buffer was allocated with exactly that size —
Read issues one bulk-in transfer requesting exactly min(bulk_in_size, count)
bytes, hence at most min(buffer size, requested); and under the usb_bulk_msg
contract (the bus reports at most the requested byte count, and returns 0 or
a negative errno) a Read that returns a nonnegative count returns at most
min(requested, endpoint maximum packet size). -/
theorem c4_read_never_exceeds_min (penv : ProbeEnv) (eps : List EndpointDesc)
    (dev : XserveFpDev) (ebi : EndpointDesc) (env : ReadEnv) (count : Nat)
    (hm : ∀ k, penv.kmalloc_ok k = true)
    (hscan : scan_endpoints penv eps initDev 0 = some dev)
    (hlast : (eps.filter usb_endpoint_is_bulk_in).getLast? = some ebi)
    (hbulk : ∀ n, (env.bulk_msg n).data.length ≤ n)
    (hret : ∀ n, (env.bulk_msg n).ret ≤ 0)
    (hlock : env.lock_interrupted = false) :
    (IoEvent.bulk_in_msg dev.bulk_in_endpointAddr (min dev.bulk_in_size count)
        ∈ (xserve_fp_read env dev count).2) ∧
    (∀ n : Int, (xserve_fp_read env dev count).1 = n → 0 ≤ n →
      n.toNat ≤ min count (usb_endpoint_maxp ebi)) := by
  have hdev : dev = scan_pure eps initDev := by
    have := scan_endpoints_eq_pure penv hm eps initDev 0
    rw [this] at hscan
    exact (Option.some.inj hscan).symm
  have hsize : dev.bulk_in_size = usb_endpoint_maxp ebi := by
    rw [hdev, scan_pure_char]
    simp [lastD_of_getLast _ _ hlast]
  constructor
  · unfold xserve_fp_read
    by_cases hr : (env.bulk_msg (min dev.bulk_in_size count)).ret ≠ 0
    · simp [hlock, hr]
    · by_cases hc : env.copy_to_user_ok = true
      · simp [hlock, hr, hc]
      · simp [hlock, hr, hc]
  · intro n hn h0
    have hb := hbulk (min dev.bulk_in_size count)
    have hrr := hret (min dev.bulk_in_size count)
    unfold xserve_fp_read at hn
    rw [hlock] at hn
    simp only [Bool.false_eq_true, if_false] at hn
    by_cases hr : (env.bulk_msg (min dev.bulk_in_size count)).ret ≠ 0
    · rw [if_pos hr] at hn
      simp only at hn
      omega
    · rw [if_neg hr] at hn
      by_cases hc : env.copy_to_user_ok = true
      · rw [if_neg (by simp [hc])] at hn
        have hn2 : ((env.bulk_msg (min dev.bulk_in_size count)).data.length : Int)
            = n := hn
        have hmin : min dev.bulk_in_size count
            = min count (usb_endpoint_maxp ebi) := by
          rw [hsize, Nat.min_comm]
        omega
      · rw [if_pos (by simp [hc])] at hn
        have hn2 : -EFAULT = n := hn
        unfold EFAULT at hn2
        omega

/-- A read environment whose bulk-in oracle honours the usb_bulk_msg
contract: at most the requested number of bytes, return value zero. -/
def demoReadEnvB : ReadEnv :=
  { lock_interrupted := false,
    bulk_msg := fun n => { ret := 0, data := List.replicate (min 4 n) 7 },
    copy_to_user_ok := true }

/-- C4 witness: the theorem applied to the session discovered from one
bulk-in and one bulk-out descriptor and a Read of 8 bytes. -/
theorem c4_read_never_exceeds_min_witness :
    (IoEvent.bulk_in_msg demoDev.bulk_in_endpointAddr
        (min demoDev.bulk_in_size 8) ∈ (xserve_fp_read demoReadEnvB demoDev 8).2) ∧
    (∀ n : Int, (xserve_fp_read demoReadEnvB demoDev 8).1 = n → 0 ≤ n →
      n.toNat ≤ min 8 (usb_endpoint_maxp epBulkIn)) :=
  c4_read_never_exceeds_min envAllOk [epBulkIn, epBulkOut] demoDev epBulkIn
    demoReadEnvB 8 (fun _ => rfl) (by decide) (by decide)
    (fun n => by simp [demoReadEnvB]) (fun n => by simp [demoReadEnvB]) rfl

/-- Events that are bus transfers: bulk-in, bulk-out and control
round trips. -/
def is_bus_transfer : IoEvent → Bool
  | .bulk_in_msg _ _ => true
  | .bulk_out_msg _ _ => true
  | .ctrl_msg _ _ _ _ _ _ => true
  | _ => false

/-- Every bus transfer in the trace happens with the session lock held: a
lock event strictly before it and an unlock event strictly after it. -/
def locked_transfers (tr : List IoEvent) : Prop :=
  ∀ (i : Nat) (ev : IoEvent), tr[i]? = some ev → is_bus_transfer ev = true →
    ∃ (j : Nat) (k : Nat), j < i ∧ i < k ∧
      tr[j]? = some IoEvent.lock ∧ tr[k]? = some IoEvent.unlock

lemma locked_transfers_nil : locked_transfers [] := by
  intro i ev hi _
  simp at hi

lemma locked_transfers_single_nonbus (a : IoEvent) (ha : is_bus_transfer a = false) :
    locked_transfers [a] := by
  intro i ev hi hbus
  rcases i with _ | n
  · simp at hi
    subst hi
    rw [ha] at hbus
    simp at hbus
  · simp at hi

lemma locked_transfers_lock_unlock : locked_transfers [IoEvent.lock, IoEvent.unlock] := by
  intro i ev hi hbus
  rcases i with _ | _ | n
  · simp at hi
    subst hi
    simp [is_bus_transfer] at hbus
  · simp at hi
    subst hi
    simp [is_bus_transfer] at hbus
  · simp at hi

lemma locked_transfers_lock_t_unlock (t : IoEvent) :
    locked_transfers [IoEvent.lock, t, IoEvent.unlock] := by
  intro i ev hi hbus
  rcases i with _ | _ | _ | n
  · simp at hi
    subst hi
    simp [is_bus_transfer] at hbus
  · exact ⟨0, 2, by omega, by omega, rfl, rfl⟩
  · simp at hi
    subst hi
    simp [is_bus_transfer] at hbus
  · simp at hi

lemma locked_transfers_lock_t_c_unlock (t c : IoEvent)
    (hc : is_bus_transfer c = false) :
    locked_transfers [IoEvent.lock, t, c, IoEvent.unlock] := by
  intro i ev hi hbus
  rcases i with _ | _ | _ | _ | n
  · simp at hi
    subst hi
    simp [is_bus_transfer] at hbus
  · exact ⟨0, 3, by omega, by omega, rfl, rfl⟩
  · simp at hi
    subst hi
    rw [hc] at hbus
    simp at hbus
  · simp at hi
    subst hi
    simp [is_bus_transfer] at hbus
  · simp at hi

lemma locked_transfers_lock_t_unlock_c (t c : IoEvent)
    (hc : is_bus_transfer c = false) :
    locked_transfers [IoEvent.lock, t, IoEvent.unlock, c] := by
  intro i ev hi hbus
  rcases i with _ | _ | _ | _ | n
  · simp at hi
    subst hi
    simp [is_bus_transfer] at hbus
  · exact ⟨0, 2, by omega, by omega, rfl, rfl⟩
  · simp at hi
    subst hi
    simp [is_bus_transfer] at hbus
  · simp at hi
    subst hi
    rw [hc] at hbus
    simp at hbus
  · simp at hi

lemma locked_transfers_lock_c_t_unlock (c t : IoEvent)
    (hc : is_bus_transfer c = false) :
    locked_transfers [IoEvent.lock, c, t, IoEvent.unlock] := by
  intro i ev hi hbus
  rcases i with _ | _ | _ | _ | n
  · simp at hi
    subst hi
    simp [is_bus_transfer] at hbus
  · simp at hi
    subst hi
    rw [hc] at hbus
    simp at hbus
  · exact ⟨0, 3, by omega, by omega, rfl, rfl⟩
  · simp at hi
    subst hi
    simp [is_bus_transfer] at hbus
  · simp at hi

lemma locked_transfers_c_lock_t_unlock (c t : IoEvent)
    (hc : is_bus_transfer c = false) :
    locked_transfers [c, IoEvent.lock, t, IoEvent.unlock] := by
  intro i ev hi hbus
  rcases i with _ | _ | _ | _ | n
  · simp at hi
    subst hi
    rw [hc] at hbus
    simp at hbus
  · simp at hi
    subst hi
    simp [is_bus_transfer] at hbus
  · exact ⟨1, 3, by omega, by omega, rfl, rfl⟩
  · simp at hi
    subst hi
    simp [is_bus_transfer] at hbus
  · simp at hi

/-- C6 counterexample: in a concrete Read the trace has the unlock at
position 2 and an access to the shared bulk-in buffer — the copy_to_user of
dev->bulk_in_buffer — at position 3: a bulk-in buffer access after the lock
is released, refuting that every such access lies between acquire and
release. -/
theorem c6_counterexample_buffer_access_after_unlock :
    (xserve_fp_read demoReadEnv demoDev 8).2[2]? = some IoEvent.unlock ∧
    (xserve_fp_read demoReadEnv demoDev 8).2[3]? =
      some (IoEvent.copy_bulk_buffer_to_user 4) ∧
    touches_bulk_in_buffer (IoEvent.copy_bulk_buffer_to_user 4) = true := by
  refine ⟨?_, ?_, rfl⟩ <;> decide

/-- C6 amended (corrected): every synchronous transfer and control path —
Read, Write, GetStatus, SetActuator — issues its bus transfer only with the
session lock held (a lock event strictly before it and an unlock strictly
after it, for every branch of every path); Write, GetStatus and SetActuator
never access the shared bulk-in buffer at all; and Read's bulk-in transfer
into that buffer happens strictly between lock and unlock.  However Read's
final copy of the bulk-in buffer to the caller happens after the unlock
(Read's trace is always one of the three listed shapes), so not every
bulk-in buffer access lies inside the lock. -/
theorem c6_lock_discipline (env : ReadEnv) (wenv : WriteEnv) (ienv : IoctlEnv)
    (dev : XserveFpDev) (count wcount cmd : Nat) (v : Int) :
    locked_transfers (xserve_fp_read env dev count).2 ∧
    locked_transfers (xserve_fp_write wenv dev wcount).2 ∧
    locked_transfers (xserve_fp_ioctl ienv cmd v).2 ∧
    ((xserve_fp_read env dev count).2 = [] ∨
     (xserve_fp_read env dev count).2 =
       [IoEvent.lock,
        IoEvent.bulk_in_msg dev.bulk_in_endpointAddr (min dev.bulk_in_size count),
        IoEvent.unlock] ∨
     (xserve_fp_read env dev count).2 =
       [IoEvent.lock,
        IoEvent.bulk_in_msg dev.bulk_in_endpointAddr (min dev.bulk_in_size count),
        IoEvent.unlock,
        IoEvent.copy_bulk_buffer_to_user
          (env.bulk_msg (min dev.bulk_in_size count)).data.length]) ∧
    (∀ ev ∈ (xserve_fp_write wenv dev wcount).2,
      touches_bulk_in_buffer ev = false) ∧
    (∀ ev ∈ (xserve_fp_ioctl ienv cmd v).2,
      touches_bulk_in_buffer ev = false) := by
  have hread : (xserve_fp_read env dev count).2 = [] ∨
      (xserve_fp_read env dev count).2 =
        [IoEvent.lock,
         IoEvent.bulk_in_msg dev.bulk_in_endpointAddr (min dev.bulk_in_size count),
         IoEvent.unlock] ∨
      (xserve_fp_read env dev count).2 =
        [IoEvent.lock,
         IoEvent.bulk_in_msg dev.bulk_in_endpointAddr (min dev.bulk_in_size count),
         IoEvent.unlock,
         IoEvent.copy_bulk_buffer_to_user
           (env.bulk_msg (min dev.bulk_in_size count)).data.length] := by
    unfold xserve_fp_read
    by_cases hl : env.lock_interrupted = true
    · simp [hl]
    · simp only [Bool.not_eq_true] at hl
      by_cases hr : (env.bulk_msg (min dev.bulk_in_size count)).ret ≠ 0
      · simp [hl, hr]
      · by_cases hc : env.copy_to_user_ok = true
        · simp [hl, hr, hc]
        · simp [hl, hr, hc]
  have hwrite : (xserve_fp_write wenv dev wcount).2 = [] ∨
      (xserve_fp_write wenv dev wcount).2 = [IoEvent.copy_from_user_ev wcount] ∨
      (xserve_fp_write wenv dev wcount).2 =
        [IoEvent.copy_from_user_ev wcount, IoEvent.lock,
         IoEvent.bulk_out_msg dev.bulk_out_endpointAddr wcount,
         IoEvent.unlock] := by
    unfold xserve_fp_write
    by_cases hk : wenv.kmalloc_ok = true
    · by_cases hcf : wenv.copy_from_user_ok = true
      · by_cases hl : wenv.lock_interrupted = true
        · simp [hk, hcf, hl]
        · simp only [Bool.not_eq_true] at hl
          by_cases hr : wenv.bulk_out_result.1 ≠ 0
          · simp [hk, hcf, hl, hr]
          · simp [hk, hcf, hl, hr]
      · simp [hk, hcf]
    · simp [hk]
  have hioctl : (xserve_fp_ioctl ienv cmd v).2 = [] ∨
      (xserve_fp_ioctl ienv cmd v).2 = [IoEvent.lock, IoEvent.unlock] ∨
      (xserve_fp_ioctl ienv cmd v).2 =
        [IoEvent.lock, IoEvent.ctrl_msg true 1 0 0 4 1000, IoEvent.unlock] ∨
      (xserve_fp_ioctl ienv cmd v).2 =
        [IoEvent.lock, IoEvent.ctrl_msg true 1 0 0 4 1000,
         IoEvent.copy_status_to_user, IoEvent.unlock] ∨
      (xserve_fp_ioctl ienv cmd v).2 =
        [IoEvent.lock, IoEvent.copy_from_user_ev 4,
         IoEvent.ctrl_msg false 2 (v % 65536).toNat 0 0 1000,
         IoEvent.unlock] := by
    unfold xserve_fp_ioctl
    by_cases hl : ienv.lock_interrupted = true
    · simp [hl]
    · simp only [Bool.not_eq_true] at hl
      by_cases hg : cmd = XSERVE_FP_IOCTL_GET_STATUS
      · by_cases hcr : ienv.ctrl_ret < 0
        · simp [hl, hg, hcr]
        · by_cases hct : ienv.copy_to_user_ok = true
          · simp [hl, hg, hcr, hct]
          · simp [hl, hg, hcr, hct]
      · have hne : XSERVE_FP_IOCTL_SET_LED ≠ XSERVE_FP_IOCTL_GET_STATUS := by
          decide
        by_cases hs : cmd = XSERVE_FP_IOCTL_SET_LED
        · by_cases hcf : ienv.copy_from_user_ok = true
          · simp [hl, hg, hs, hcf, hne]
          · simp [hl, hg, hs, hcf, hne]
        · simp [hl, hg, hs]
  refine ⟨?_, ?_, ?_, hread, ?_, ?_⟩
  · rcases hread with h | h | h <;> rw [h]
    · exact locked_transfers_nil
    · exact locked_transfers_lock_t_unlock _
    · exact locked_transfers_lock_t_unlock_c _ _ rfl
  · rcases hwrite with h | h | h <;> rw [h]
    · exact locked_transfers_nil
    · exact locked_transfers_single_nonbus _ rfl
    · exact locked_transfers_c_lock_t_unlock _ _ rfl
  · rcases hioctl with h | h | h | h | h <;> rw [h]
    · exact locked_transfers_nil
    · exact locked_transfers_lock_unlock
    · exact locked_transfers_lock_t_unlock _
    · exact locked_transfers_lock_t_c_unlock _ _ rfl
    · exact locked_transfers_lock_c_t_unlock _ _ rfl
  · intro ev hev
    rcases hwrite with h | h | h
    · rw [h] at hev
      simp at hev
    · rw [h] at hev
      simp at hev
      subst hev
      rfl
    · rw [h] at hev
      simp at hev
      rcases hev with rfl | rfl | rfl | rfl <;> rfl
  · intro ev hev
    rcases hioctl with h | h | h | h | h
    · rw [h] at hev
      simp at hev
    · rw [h] at hev
      simp at hev
      rcases hev with rfl | rfl <;> rfl
    · rw [h] at hev
      simp at hev
      rcases hev with rfl | rfl | rfl <;> rfl
    · rw [h] at hev
      simp at hev
      rcases hev with rfl | rfl | rfl | rfl <;> rfl
    · rw [h] at hev
      simp at hev
      rcases hev with rfl | rfl | rfl | rfl <;> rfl

/-- A write environment: allocation, copy and lock granted, 5 bytes
written. -/
def demoWriteEnv : WriteEnv :=
  { kmalloc_ok := true, copy_from_user_ok := true, lock_interrupted := false,
    bulk_out_result := (0, 5) }

/-- C6 witness: the amended lock-discipline theorem at a concrete Read,
Write and GetStatus call. -/
theorem c6_lock_discipline_witness :
    locked_transfers (xserve_fp_read demoReadEnv demoDev 8).2 ∧
    locked_transfers (xserve_fp_write demoWriteEnv demoDev 5).2 ∧
    locked_transfers
      (xserve_fp_ioctl demoIoctlEnv XSERVE_FP_IOCTL_GET_STATUS 0).2 ∧
    ((xserve_fp_read demoReadEnv demoDev 8).2 = [] ∨
     (xserve_fp_read demoReadEnv demoDev 8).2 =
       [IoEvent.lock,
        IoEvent.bulk_in_msg demoDev.bulk_in_endpointAddr
          (min demoDev.bulk_in_size 8),
        IoEvent.unlock] ∨
     (xserve_fp_read demoReadEnv demoDev 8).2 =
       [IoEvent.lock,
        IoEvent.bulk_in_msg demoDev.bulk_in_endpointAddr
          (min demoDev.bulk_in_size 8),
        IoEvent.unlock,
        IoEvent.copy_bulk_buffer_to_user
          (demoReadEnv.bulk_msg (min demoDev.bulk_in_size 8)).data.length]) ∧
    (∀ ev ∈ (xserve_fp_write demoWriteEnv demoDev 5).2,
      touches_bulk_in_buffer ev = false) ∧
    (∀ ev ∈ (xserve_fp_ioctl demoIoctlEnv XSERVE_FP_IOCTL_GET_STATUS 0).2,
      touches_bulk_in_buffer ev = false) :=
  c6_lock_discipline demoReadEnv demoWriteEnv demoIoctlEnv demoDev 8 5
    XSERVE_FP_IOCTL_GET_STATUS 0

/-- C9 (confirmed): in Read and in GetStatus the copy to the caller's buffer
happens only after the bus transfer completed successfully, and when that
copy faults the call returns -EFAULT (BoundaryFault) even though the
device-side transfer already took effect: the trace places the bus transfer
(position 1) before the faulting user copy (position 3 for Read, 2 for
GetStatus) and the received bytes or status value are not delivered. -/
theorem c9_copy_fault_after_transfer (env : ReadEnv) (ienv : IoctlEnv)
    (dev : XserveFpDev) (count : Nat)
    (hl : env.lock_interrupted = false)
    (hok : (env.bulk_msg (min dev.bulk_in_size count)).ret = 0)
    (hcf : env.copy_to_user_ok = false)
    (hl2 : ienv.lock_interrupted = false)
    (hc : 0 ≤ ienv.ctrl_ret) (hc2 : ienv.copy_to_user_ok = false) :
    ((xserve_fp_read env dev count).1 = -EFAULT ∧
     (xserve_fp_read env dev count).2[1]? =
       some (IoEvent.bulk_in_msg dev.bulk_in_endpointAddr
         (min dev.bulk_in_size count)) ∧
     (xserve_fp_read env dev count).2[3]? =
       some (IoEvent.copy_bulk_buffer_to_user
         (env.bulk_msg (min dev.bulk_in_size count)).data.length)) ∧
    ((xserve_fp_ioctl ienv XSERVE_FP_IOCTL_GET_STATUS 0).1 = -EFAULT ∧
     (xserve_fp_ioctl ienv XSERVE_FP_IOCTL_GET_STATUS 0).2[1]? =
       some (IoEvent.ctrl_msg true 1 0 0 4 1000) ∧
     (xserve_fp_ioctl ienv XSERVE_FP_IOCTL_GET_STATUS 0).2[2]? =
       some IoEvent.copy_status_to_user) := by
  constructor
  · unfold xserve_fp_read
    simp [hl, hok, hcf]
  · unfold xserve_fp_ioctl
    have hnl : ¬ ienv.ctrl_ret < 0 := not_lt.mpr hc
    simp [hl2, hnl, hc2]

/-- A read environment whose user copy faults. -/
def demoReadEnvFail : ReadEnv :=
  { lock_interrupted := false,
    bulk_msg := fun _ => { ret := 0, data := [1, 2, 3, 4] },
    copy_to_user_ok := false }

/-- An ioctl environment whose control transfer succeeds (4 bytes) but whose
user copy faults. -/
def demoIoctlEnvFail : IoctlEnv :=
  { lock_interrupted := false, ctrl_ret := 4, copy_to_user_ok := false,
    copy_from_user_ok := true }

/-- C9 witness: the theorem at a concrete Read and GetStatus with faulting
user copies. -/
theorem c9_copy_fault_after_transfer_witness :
    ((xserve_fp_read demoReadEnvFail demoDev 8).1 = -EFAULT ∧
     (xserve_fp_read demoReadEnvFail demoDev 8).2[1]? =
       some (IoEvent.bulk_in_msg demoDev.bulk_in_endpointAddr
         (min demoDev.bulk_in_size 8)) ∧
     (xserve_fp_read demoReadEnvFail demoDev 8).2[3]? =
       some (IoEvent.copy_bulk_buffer_to_user
         (demoReadEnvFail.bulk_msg (min demoDev.bulk_in_size 8)).data.length)) ∧
    ((xserve_fp_ioctl demoIoctlEnvFail XSERVE_FP_IOCTL_GET_STATUS 0).1
        = -EFAULT ∧
     (xserve_fp_ioctl demoIoctlEnvFail XSERVE_FP_IOCTL_GET_STATUS 0).2[1]? =
       some (IoEvent.ctrl_msg true 1 0 0 4 1000) ∧
     (xserve_fp_ioctl demoIoctlEnvFail XSERVE_FP_IOCTL_GET_STATUS 0).2[2]? =
       some IoEvent.copy_status_to_user) :=
  c9_copy_fault_after_transfer demoReadEnvFail demoIoctlEnvFail demoDev 8
    rfl rfl rfl rfl (by decide) rfl

end XFP
